import Mathlib

/-!
Verification of the stormpath-sdk-python custom-data and application layer.

The repository offers a dictionary-like CustomData overlay on a lazily
materialized REST resource, with a pending-delete set flushed on save, and
an Application resource whose composed operations turn specific HTTP status
codes into None results.  The custom-data behaviour is embedded below as
pure functions over an explicit state record; remote delete calls issued by
an operation are returned as an explicit list of hrefs.
-/

namespace Stormpath

/-- Values stored in custom data: the JSON-like scalars, lists and nested
objects used by the repository (integers, strings, booleans, lists, string
keyed objects). -/
inductive Value : Type where
  | vInt : Int → Value
  | vStr : String → Value
  | vBool : Bool → Value
  | vList : List Value → Value
  | vDict : List (String × Value) → Value

/-- Errors of the custom-data dictionary operations: KeyRejected for a write
with a reserved key or a key starting with the restricted character, NotFound
for a read or delete of an absent, deleted or reserved key. -/
inductive CDErr : Type where
  | KeyRejected : CDErr
  | NotFound : CDErr
deriving DecidableEq

/-- Association-list lookup over the materialized data: the first binding of
the key wins, none when the key is absent. -/
def alist_lookup : List (String × Value) → String → Option Value
  | [], _ => none
  | (k1, v) :: rest, k => if k1 = k then some v else alist_lookup rest k

/-- Remove every binding of a key from the materialized data. -/
def alist_remove (l : List (String × Value)) (k : String) : List (String × Value) :=
  l.filter (fun p => p.1 != k)

/-- Store a binding, replacing any previous binding of the same key. -/
def alist_insert (l : List (String × Value)) (k : String) (v : Value) :
    List (String × Value) :=
  (k, v) :: alist_remove l k

/-- Modelled from the spec: the reserved / readonly field names of
CustomData (custom_data.py is not among the staged sources), at minimum
href, createdAt / created_at, updatedAt / updated_at and meta, in both the
remote camelCase and the local snake_case form. -/
def reserved_attrs : List String :=
  ["href", "createdAt", "created_at", "updatedAt", "updated_at", "meta"]

/-- A key is reserved when it is one of the reserved / readonly names. -/
def is_reserved (k : String) : Bool :=
  reserved_attrs.contains k

/-- key.startswith("-"): whether the first character of the key is the
restricted character "-". -/
def starts_with_dash (k : String) : Bool :=
  match k.data with
  | [] => false
  | c :: _ => c = '-'

/-- Modelled from the spec: the CustomData state (custom_data.py and base.py
are not among the staged sources).  A CustomData instance is identified by
an href, holds the materialized data mapping, a materialization flag, the
pending-delete set of fully qualified keys, and the is-new flag of the
owning resource (true when the resource was never persisted remotely). -/
structure CustomData : Type where
  href : String
  data : List (String × Value)
  deletes : Finset String
  is_new : Bool
  materialized : Bool

/-- The fully qualified path of a key: href + "/" + key. -/
def key_href (d : CustomData) (k : String) : String :=
  d.href ++ "/" ++ k

/-- Modelled from the spec: merging an incoming properties mapping into the
materialized data (the _set_properties hook of custom_data.py, absent from
the staged sources; behaviour of the locally-set-value precedence is the one
the repository test test_manually_set_property_has_precedence pins down).
Reserved keys are kept out of the custom-data mapping; a key already bound
locally keeps its local value; any other incoming key is stored as given. -/
def set_properties_data (data : List (String × Value)) (props : List (String × Value)) :
    List (String × Value) :=
  props.foldl
    (fun acc p =>
      if is_reserved p.1 then acc
      else if (alist_lookup acc p.1).isSome then acc
      else acc ++ [p])
    data

/-- Modelled from the spec: merge incoming properties into a CustomData
instance and mark it materialized. -/
def CustomData.set_properties (d : CustomData) (props : List (String × Value)) :
    CustomData :=
  { d with data := set_properties_data d.data props, materialized := true }

/-- Modelled from the spec: the gated lazy fetch.  An unmaterialized
instance fetches the full remote mapping once and merges it; a materialized
instance is left untouched.  Per the design notes, lazy materialization is
modelled as an explicit state flag plus this single gated fetch, and the
dictionary operations below act on the ensured (materialized) state. -/
def CustomData.ensure_data (remote : List (String × Value)) (d : CustomData) :
    CustomData :=
  if d.materialized then d else d.set_properties remote

/-- Modelled from the spec: containment.  A key is contained when it is
present in the materialized data, not reserved, and not pending deletion. -/
def CustomData.contains (d : CustomData) (k : String) : Bool :=
  (alist_lookup d.data k).isSome && !(is_reserved k) && !(decide (key_href d k ∈ d.deletes))

/-- Modelled from the spec: the lenient accessor.  A reserved or
pending-deleted key behaves as absent. -/
def CustomData.get (d : CustomData) (k : String) : Option Value :=
  if is_reserved k ∨ key_href d k ∈ d.deletes then none
  else alist_lookup d.data k

/-- Modelled from the spec: strict indexing, failing with NotFound where the
lenient accessor yields none. -/
def CustomData.getitem (d : CustomData) (k : String) : Except CDErr Value :=
  match d.get k with
  | some v => Except.ok v
  | none => Except.error CDErr.NotFound

/-- Modelled from the spec: set(key, value).  A reserved key or a key
starting with the restricted character "-" is rejected; otherwise the value
is stored locally, a pending delete of the key is cancelled, and no remote
call is issued (the returned list is the remote delete calls issued by the
operation). -/
def CustomData.set (d : CustomData) (k : String) (v : Value) :
    Except CDErr (CustomData × List String) :=
  if is_reserved k || starts_with_dash k then
    Except.error CDErr.KeyRejected
  else
    Except.ok
      ({ d with
          data := alist_insert d.data k v,
          deletes := d.deletes.erase (key_href d k) }, [])

/-- Modelled from the spec: delete(key).  A reserved, already absent or
pending-deleted key fails with NotFound; otherwise the key is removed from
the local data and, only when the owning resource already exists remotely
(is not new), its fully qualified path is added to the pending-delete set.
No remote call is issued at delete time (the returned list is the remote
delete calls issued by the operation). -/
def CustomData.delete (d : CustomData) (k : String) :
    Except CDErr (CustomData × List String) :=
  if is_reserved k then Except.error CDErr.NotFound
  else if key_href d k ∈ d.deletes then Except.error CDErr.NotFound
  else
    match alist_lookup d.data k with
    | none => Except.error CDErr.NotFound
    | some _ =>
        Except.ok
          ({ d with
              data := alist_remove d.data k,
              deletes := if d.is_new then d.deletes else insert (key_href d k) d.deletes },
            [])

/-- Run delete as the Python caller sees it: a failing delete raises before
mutating, so the state after a failure is the original state; the middle
component is the list of remote delete calls issued. -/
def CustomData.delete_run (d : CustomData) (k : String) :
    CustomData × List String × Option CDErr :=
  match d.delete k with
  | Except.ok (d2, calls) => (d2, calls, none)
  | Except.error e => (d, [], some e)

/-- Run set as the Python caller sees it: a rejected write raises before
mutating, so the state after a failure is the original state. -/
def CustomData.set_run (d : CustomData) (k : String) (v : Value) :
    CustomData × List String × Option CDErr :=
  match d.set k v with
  | Except.ok (d2, calls) => (d2, calls, none)
  | Except.error e => (d, [], some e)

/-- Modelled from the spec: the item view.  Only non-reserved, non-deleted
materialized keys are exposed; iteration, keys() and values() are the
projections of this list. -/
def CustomData.items (d : CustomData) : List (String × Value) :=
  d.data.filter (fun p => !(is_reserved p.1) && !(decide (key_href d p.1 ∈ d.deletes)))

/-- Modelled from the spec: keys(), the keys of the item view (iteration
yields exactly these keys). -/
def CustomData.keys (d : CustomData) : List String :=
  d.items.map Prod.fst

/-- Modelled from the spec: values(), the values of the item view. -/
def CustomData.values (d : CustomData) : List Value :=
  d.items.map Prod.snd

/-- Modelled from the spec: the outbound serialization hook, the full
materialized mapping minus the reserved keys. -/
def CustomData.get_properties (d : CustomData) : List (String × Value) :=
  d.data.filter (fun p => !(is_reserved p.1))

/-- Modelled from the spec: save().  Every pending delete is flushed as one
remote delete_resource call per entry of the pending-delete set (the order
is not significant; the model emits them in sorted order), and the set is
cleared; the dirty-field persistence then proceeds as for a plain resource
and issues no delete calls.  The second component is the list of remote
delete calls issued. -/
def CustomData.save (d : CustomData) : CustomData × List String :=
  ({ d with deletes := ∅ }, d.deletes.sort (· ≤ ·))

/-- A domain error carrying the HTTP status code of the failed remote call
(stormpath.error.Error as used by application.py). -/
structure Error : Type where
  status_code : Nat

/-- Application.authenticate_account (application.py, lines 34 to 48): the
underlying login attempt either yields the authenticated account or raises a
status-coded Error; a 400 error is converted to None, any other error is
re-raised, and a successful attempt returns the account.  The account type
is abstract since the Account resource itself is out of scope. -/
def authenticate_account {α : Type} (attempt : Except Error α) : Except Error (Option α) :=
  match attempt with
  | Except.ok account => Except.ok (some account)
  | Except.error e =>
      if e.status_code = 400 then Except.ok none else Except.error e

/-- Application.verify_password_reset_token (application.py, lines 62 to
75): the token lookup either yields the account of the password reset token
or raises a status-coded Error; a 404 error is converted to None, any other
error is re-raised, and a successful lookup returns the account. -/
def verify_password_reset_token {α : Type} (lookup : Except Error α) :
    Except Error (Option α) :=
  match lookup with
  | Except.ok account => Except.ok (some account)
  | Except.error e =>
      if e.status_code = 404 then Except.ok none else Except.error e

/-! ### Concrete fixtures mirroring the repository test setup -/

/-- A materialized pre-existing custom-data instance, as built by the test
fixture (href test/resource, two custom fields, nothing pending). -/
def ex0 : CustomData :=
  { href := "test/resource",
    data := [("foo", Value.vInt 1), ("bar", Value.vStr "2")],
    deletes := ∅, is_new := false, materialized := true }

/-- A materialized instance whose data still carries the reserved href
field, to exercise the reserved-key masking. -/
def ex_res : CustomData :=
  { href := "test/resource",
    data := [("href", Value.vStr "test/resource"), ("foo", Value.vInt 1)],
    deletes := ∅, is_new := false, materialized := true }

/-- A materialized instance with the key foo already pending deletion. -/
def ex_pend : CustomData :=
  { href := "test/resource",
    data := [("bar", Value.vStr "2")],
    deletes := {"test/resource/foo"}, is_new := false, materialized := true }

/-- A custom-data instance of a newly constructed, not yet persisted
resource. -/
def ex_new : CustomData :=
  { href := "test/resource",
    data := [("foo", Value.vInt 1)],
    deletes := ∅, is_new := true, materialized := true }

/-- The state ex_new reaches after delete of foo: the key is gone locally
and nothing was scheduled. -/
def ex_new2 : CustomData :=
  { href := "test/resource",
    data := alist_remove ex_new.data "foo",
    deletes := ex_new.deletes, is_new := true, materialized := true }

/-- A materialized instance before the manual write of quux. -/
def ex_m : CustomData :=
  { href := "test/resource",
    data := [("bar", Value.vStr "2")],
    deletes := ∅, is_new := false, materialized := true }

/-- The state ex_m reaches after the manual write of quux. -/
def ex_m1 : CustomData :=
  { href := "test/resource",
    data := alist_insert ex_m.data "quux" (Value.vStr "a-little-corgi"),
    deletes := ex_m.deletes.erase (key_href ex_m "quux"),
    is_new := false, materialized := true }

/-- The incoming properties mapping merged into ex_m1, as in the test
test_manually_set_property_has_precedence. -/
def props10 : List (String × Value) :=
  [("href", Value.vStr "test/resource"),
   ("quux", Value.vDict [("key", Value.vStr "value")]),
   ("baz", Value.vInt 3)]

/-! ### Helper lemmas about the association-list operations -/

theorem alist_lookup_remove_self (l : List (String × Value)) (k : String) :
    alist_lookup (alist_remove l k) k = none := by
  induction l with
  | nil => rfl
  | cons p rest ih =>
      by_cases hpk : p.1 = k
      · simpa [alist_remove, alist_lookup, hpk] using ih
      · simpa [alist_remove, alist_lookup, hpk] using ih

theorem alist_lookup_insert_self (l : List (String × Value)) (k : String) (v : Value) :
    alist_lookup (alist_insert l k v) k = some v := by
  simp [alist_insert, alist_lookup]

theorem alist_lookup_append_of_some (l1 l2 : List (String × Value)) (k : String)
    (v : Value) (h : alist_lookup l1 k = some v) :
    alist_lookup (l1 ++ l2) k = some v := by
  induction l1 with
  | nil => simp [alist_lookup] at h
  | cons p rest ih =>
      by_cases hpk : p.1 = k
      · simpa [alist_lookup, hpk] using h
      · simp [alist_lookup, hpk] at h ⊢
        exact ih h

theorem alist_lookup_append_of_none (l1 l2 : List (String × Value)) (k : String)
    (h : alist_lookup l1 k = none) :
    alist_lookup (l1 ++ l2) k = alist_lookup l2 k := by
  induction l1 with
  | nil => rfl
  | cons p rest ih =>
      by_cases hpk : p.1 = k
      · simp [alist_lookup, hpk] at h
      · simp [alist_lookup, hpk] at h ⊢
        exact ih h

theorem set_properties_data_cons (acc : List (String × Value)) (p : String × Value)
    (rest : List (String × Value)) :
    set_properties_data acc (p :: rest) =
      set_properties_data
        (if is_reserved p.1 then acc
         else if (alist_lookup acc p.1).isSome then acc
         else acc ++ [p]) rest := rfl

theorem set_properties_data_keeps (props : List (String × Value)) :
    ∀ (acc : List (String × Value)) (k : String) (v : Value),
      alist_lookup acc k = some v →
      alist_lookup (set_properties_data acc props) k = some v := by
  induction props with
  | nil => intro acc k v h; simpa [set_properties_data] using h
  | cons p rest ih =>
      intro acc k v h
      rw [set_properties_data_cons]
      by_cases hres : is_reserved p.1
      · simpa [hres] using ih acc k v h
      · by_cases hin : (alist_lookup acc p.1).isSome
        · simpa [hres, hin] using ih acc k v h
        · simp only [hres, hin, if_false, Bool.false_eq_true, if_neg]
          exact ih (acc ++ [p]) k v (alist_lookup_append_of_some acc [p] k v h)

theorem set_properties_data_of_absent (props : List (String × Value)) :
    ∀ (acc : List (String × Value)) (k : String),
      is_reserved k = false →
      alist_lookup acc k = none →
      alist_lookup (set_properties_data acc props) k = alist_lookup props k := by
  induction props with
  | nil => intro acc k _ h; simpa [set_properties_data, alist_lookup] using h
  | cons p rest ih =>
      intro acc k hk h
      rw [set_properties_data_cons]
      by_cases hres : is_reserved p.1
      · have hpk : p.1 ≠ k := by
          intro he; rw [he, hk] at hres; exact Bool.false_ne_true hres
        simpa [hres, alist_lookup, hpk] using ih acc k hk h
      · by_cases hin : (alist_lookup acc p.1).isSome
        · have hpk : p.1 ≠ k := by
            intro he; rw [he, h] at hin; simp at hin
          simpa [hres, hin, alist_lookup, hpk] using ih acc k hk h
        · simp only [hres, hin, if_false, Bool.false_eq_true, if_neg]
          by_cases hpk : p.1 = k
          · have hone : alist_lookup (acc ++ [p]) k = some p.2 := by
              rw [alist_lookup_append_of_none acc [p] k h]
              simp [alist_lookup, hpk]
            rw [set_properties_data_keeps rest (acc ++ [p]) k p.2 hone]
            simp [alist_lookup, hpk]
          · have hnone : alist_lookup (acc ++ [p]) k = none := by
              rw [alist_lookup_append_of_none acc [p] k h]
              simp [alist_lookup, hpk]
            simpa [alist_lookup, hpk] using ih (acc ++ [p]) k hk hnone

/-! ### The claims -/

/-- C1: for every CustomData instance with pending-delete set D at the time
save() is called, save() issues exactly one remote delete_resource call per
entry of D (each fully qualified path of D occurs exactly once among the
issued calls, and no other call is issued), and by the time save returns the
pending-delete set is empty. -/
theorem save_flushes_each_delete_once (d : CustomData) :
    (d.save).1.deletes = ∅ ∧
    (∀ h, List.count h (d.save).2 = if h ∈ d.deletes then 1 else 0) := by
  refine ⟨rfl, fun h => ?_⟩
  by_cases hm : h ∈ d.deletes
  · rw [if_pos hm]
    exact List.count_eq_one_of_mem (Finset.sort_nodup _ _)
      ((Finset.mem_sort _).mpr hm)
  · rw [if_neg hm]
    exact List.count_eq_zero_of_not_mem (fun hc => hm ((Finset.mem_sort _).mp hc))

/-- C3: deleting a key that is not part of the materialized (or newly set)
data fails with NotFound, issues no remote call, and leaves the state, and
with it the pending-delete set, unchanged. -/
theorem delete_absent_key_fails_without_scheduling (d : CustomData) (k : String)
    (h : alist_lookup d.data k = none) :
    d.delete_run k = (d, [], some CDErr.NotFound) := by
  have hdel : d.delete k = Except.error CDErr.NotFound := by
    simp [CustomData.delete, h]
  simp [CustomData.delete_run, hdel]

/-- C3 witness: deleting the never-present key corge on the concrete test
fixture fails with NotFound and leaves the fixture untouched. -/
theorem delete_absent_key_fails_without_scheduling_witness :
    ex0.delete_run "corge" = (ex0, [], some CDErr.NotFound) :=
  delete_absent_key_fails_without_scheduling ex0 "corge" rfl

/-- C7: writing a reserved key, or a key starting with the restricted
character "-", fails with KeyRejected for every value, and the mapping state
is unchanged by the rejected write. -/
theorem set_rejected_key_leaves_state (d : CustomData) (k : String) (v : Value)
    (h : is_reserved k = true ∨ starts_with_dash k = true) :
    d.set_run k v = (d, [], some CDErr.KeyRejected) := by
  have hset : d.set k v = Except.error CDErr.KeyRejected := by
    rcases h with h1 | h1 <;> simp [CustomData.set, h1]
  simp [CustomData.set_run, hset]

/-- C7 witness: writing the reserved key meta, on the concrete test fixture,
fails with KeyRejected and leaves the fixture untouched. -/
theorem set_rejected_key_leaves_state_witness :
    ex0.set_run "meta" (Value.vStr "i-am-so-meta") =
      (ex0, [], some CDErr.KeyRejected) :=
  set_rejected_key_leaves_state ex0 "meta" (Value.vStr "i-am-so-meta") (Or.inl rfl)

/-- C9: authenticate_account returns None exactly when the underlying login
attempt fails with status code 400, re-raises any error with another code,
and returns the account otherwise; verify_password_reset_token returns None
exactly when the token lookup fails with status code 404, re-raises any
other error, and returns the account of the token otherwise. -/
theorem application_status_code_handling (α : Type) (r s : Except Error α) :
    (authenticate_account r = Except.ok none ↔
      ∃ e, r = Except.error e ∧ e.status_code = 400) ∧
    (∀ e, r = Except.error e → e.status_code ≠ 400 →
      authenticate_account r = Except.error e) ∧
    (∀ a, r = Except.ok a → authenticate_account r = Except.ok (some a)) ∧
    (verify_password_reset_token s = Except.ok none ↔
      ∃ e, s = Except.error e ∧ e.status_code = 404) ∧
    (∀ e, s = Except.error e → e.status_code ≠ 404 →
      verify_password_reset_token s = Except.error e) ∧
    (∀ a, s = Except.ok a → verify_password_reset_token s = Except.ok (some a)) := by
  refine ⟨?_, ?_, ?_, ?_, ?_, ?_⟩
  · cases r with
    | ok a => simp [authenticate_account]
    | error e =>
        by_cases h4 : e.status_code = 400 <;>
          simp [authenticate_account, h4]
  · intro e he hne
    subst he
    simp [authenticate_account, hne]
  · intro a ha
    subst ha
    rfl
  · cases s with
    | ok a => simp [verify_password_reset_token]
    | error e =>
        by_cases h4 : e.status_code = 404 <;>
          simp [verify_password_reset_token, h4]
  · intro e he hne
    subst he
    simp [verify_password_reset_token, hne]
  · intro a ha
    subst ha
    rfl

/-- C2: deleting a non-reserved contained key of a pre-existing (not new)
resource removes it from containment, adds exactly one entry, the fully
qualified path href + "/" + key, to the pending-delete set, and issues no
remote delete call at delete time. -/
theorem delete_existing_key_schedules_one (d : CustomData) (k : String)
    (hc : d.contains k = true) (hn : d.is_new = false) :
    ∃ d2, d.delete k = Except.ok (d2, []) ∧
      d2.contains k = false ∧
      d2.deletes = insert (key_href d k) d.deletes ∧
      key_href d k ∉ d.deletes ∧
      d2.deletes.card = d.deletes.card + 1 := by
  simp only [CustomData.contains, Bool.and_eq_true, Bool.not_eq_true',
    decide_eq_false_iff_not] at hc
  obtain ⟨⟨h1, h2⟩, h3⟩ := hc
  obtain ⟨v, hv⟩ := Option.isSome_iff_exists.mp h1
  refine ⟨{ d with
      data := alist_remove d.data k,
      deletes := insert (key_href d k) d.deletes }, ?_, ?_, rfl, h3, ?_⟩
  · simp [CustomData.delete, h2, h3, hv, hn]
  · simp [CustomData.contains, alist_lookup_remove_self]
  · exact Finset.card_insert_of_not_mem h3

/-- C2 witness: deleting the contained key foo on the concrete test fixture
schedules exactly the path test/resource/foo and issues no remote call. -/
theorem delete_existing_key_schedules_one_witness :
    ∃ d2, ex0.delete "foo" = Except.ok (d2, []) ∧
      d2.contains "foo" = false ∧
      d2.deletes = insert (key_href ex0 "foo") ex0.deletes ∧
      key_href ex0 "foo" ∉ ex0.deletes ∧
      d2.deletes.card = ex0.deletes.card + 1 :=
  delete_existing_key_schedules_one ex0 "foo" rfl rfl

/-- C4: re-setting a key whose fully qualified path is pending deletion
removes that path from the pending-delete set, restores containment with the
new value, and issues no remote delete call. -/
theorem set_cancels_pending_delete (d : CustomData) (k : String) (v : Value)
    (hr : is_reserved k = false) (hs : starts_with_dash k = false)
    (hm : key_href d k ∈ d.deletes) :
    ∃ d2, d.set k v = Except.ok (d2, []) ∧
      d2.deletes = d.deletes.erase (key_href d k) ∧
      key_href d k ∉ d2.deletes ∧
      d2.deletes.card + 1 = d.deletes.card ∧
      d2.contains k = true ∧
      d2.get k = some v := by
  refine ⟨{ d with
      data := alist_insert d.data k v,
      deletes := d.deletes.erase (key_href d k) }, ?_, rfl, ?_, ?_, ?_, ?_⟩
  · simp [CustomData.set, hr, hs]
  · exact Finset.not_mem_erase _ _
  · show (d.deletes.erase (key_href d k)).card + 1 = d.deletes.card
    rw [Finset.card_erase_of_mem hm]
    exact Nat.succ_pred_eq_of_pos (Finset.card_pos.mpr ⟨_, hm⟩)
  · simp [CustomData.contains, alist_lookup_insert_self, hr, key_href,
      Finset.not_mem_erase]
  · simp [CustomData.get, hr, key_href, Finset.not_mem_erase,
      alist_lookup_insert_self]

/-- C4 witness: re-setting foo while test/resource/foo is pending deletion
empties the pending-delete set, restores containment, calls nothing. -/
theorem set_cancels_pending_delete_witness :
    ∃ d2, ex_pend.set "foo" (Value.vStr "i-was-never-even-gone") =
        Except.ok (d2, []) ∧
      d2.deletes = ex_pend.deletes.erase (key_href ex_pend "foo") ∧
      key_href ex_pend "foo" ∉ d2.deletes ∧
      d2.deletes.card + 1 = ex_pend.deletes.card ∧
      d2.contains "foo" = true ∧
      d2.get "foo" = some (Value.vStr "i-was-never-even-gone") :=
  set_cancels_pending_delete ex_pend "foo" (Value.vStr "i-was-never-even-gone")
    rfl rfl (by decide)

/-- C5: on a newly constructed, not yet persisted resource, a successful
delete never adds an entry to the pending-delete set: the set is unchanged
(hence stays empty when it was empty), the key is removed locally, and no
remote call is issued. -/
theorem delete_on_new_resource_schedules_nothing (d : CustomData) (k : String)
    (d2 : CustomData) (calls : List String)
    (hn : d.is_new = true) (heq : d.delete k = Except.ok (d2, calls)) :
    d2.deletes = d.deletes ∧ calls = [] ∧ alist_lookup d2.data k = none ∧
      (d.deletes = ∅ → d2.deletes = ∅) := by
  rw [CustomData.delete] at heq
  split at heq
  · exact absurd heq (by simp)
  · split at heq
    · exact absurd heq (by simp)
    · split at heq
      · exact absurd heq (by simp)
      · simp only [Except.ok.injEq, Prod.mk.injEq] at heq
        obtain ⟨hd2, hcalls⟩ := heq
        subst hd2
        subst hcalls
        simp [hn, alist_lookup_remove_self]

/-- C5 witness: deleting foo on the concrete new-resource fixture leaves the
pending-delete set empty and removes the key locally. -/
theorem delete_on_new_resource_schedules_nothing_witness :
    ex_new2.deletes = ex_new.deletes ∧ ([] : List String) = [] ∧
      alist_lookup ex_new2.data "foo" = none ∧
      (ex_new.deletes = ∅ → ex_new2.deletes = ∅) :=
  delete_on_new_resource_schedules_nothing ex_new "foo" ex_new2 [] rfl rfl

/-- C6: for a non-reserved key not starting with the restricted character,
set followed by get returns the written value, both through the lenient
accessor and through strict indexing. -/
theorem set_then_get_roundtrip (d : CustomData) (k : String) (v : Value)
    (hr : is_reserved k = false) (hs : starts_with_dash k = false) :
    ∃ d2, d.set k v = Except.ok (d2, []) ∧ d2.get k = some v ∧
      d2.getitem k = Except.ok v ∧ d2.contains k = true := by
  refine ⟨{ d with
      data := alist_insert d.data k v,
      deletes := d.deletes.erase (key_href d k) }, ?_, ?_, ?_, ?_⟩
  · simp [CustomData.set, hr, hs]
  · simp [CustomData.get, hr, key_href, Finset.not_mem_erase,
      alist_lookup_insert_self]
  · simp [CustomData.getitem, CustomData.get, hr, key_href,
      Finset.not_mem_erase, alist_lookup_insert_self]
  · simp [CustomData.contains, hr, key_href, Finset.not_mem_erase,
      alist_lookup_insert_self]

/-- C6 witness: writing whatever = 42 on the concrete test fixture and
reading it back returns 42. -/
theorem set_then_get_roundtrip_witness :
    ∃ d2, ex0.set "whatever" (Value.vInt 42) = Except.ok (d2, []) ∧
      d2.get "whatever" = some (Value.vInt 42) ∧
      d2.getitem "whatever" = Except.ok (Value.vInt 42) ∧
      d2.contains "whatever" = true :=
  set_then_get_roundtrip ex0 "whatever" (Value.vInt 42) rfl rfl

/-- C8: a reserved key cannot be deleted (delete fails), is never contained,
and never appears among the keys or items of the dictionary view (iteration
yields exactly the keys of that view), even when its value is present in the
materialized data. -/
theorem reserved_key_hidden (d : CustomData) (k : String)
    (h : is_reserved k = true) :
    d.delete k = Except.error CDErr.NotFound ∧
    d.contains k = false ∧
    k ∉ d.keys ∧
    (∀ v, (k, v) ∉ d.items) := by
  refine ⟨?_, ?_, ?_, ?_⟩
  · simp [CustomData.delete, h]
  · simp [CustomData.contains, h]
  · intro hk
    simp only [CustomData.keys, List.mem_map] at hk
    obtain ⟨p, hp, hfst⟩ := hk
    simp only [CustomData.items, List.mem_filter] at hp
    obtain ⟨hpd, hpred⟩ := hp
    rw [hfst] at hpred
    simp [h] at hpred
  · intro v hv
    simp only [CustomData.items, List.mem_filter] at hv
    obtain ⟨hvd, hvpred⟩ := hv
    simp [h] at hvpred

/-- C8 witness: on a fixture whose materialized data still carries the href
field, the reserved key href cannot be deleted, is not contained, and is
absent from the keys and items of the view. -/
theorem reserved_key_hidden_witness :
    ex_res.delete "href" = Except.error CDErr.NotFound ∧
    ex_res.contains "href" = false ∧
    "href" ∉ ex_res.keys ∧
    (∀ v, ("href", v) ∉ ex_res.items) :=
  reserved_key_hidden ex_res "href" rfl

/-- C10: merging an incoming properties mapping keeps the value of a key
that was manually set on the instance (the locally set value takes
precedence over the incoming one), while a non-reserved incoming key absent
from the local data is stored as given. -/
theorem merge_keeps_locally_set_value (d : CustomData) (k : String) (v : Value)
    (props : List (String × Value)) (d1 : CustomData)
    (hr : is_reserved k = false) (hs : starts_with_dash k = false)
    (h1 : d.set k v = Except.ok (d1, [])) :
    alist_lookup (d1.set_properties props).data k = some v ∧
    (d1.set_properties props).get k = some v ∧
    (∀ k2, is_reserved k2 = false → alist_lookup d1.data k2 = none →
      alist_lookup (d1.set_properties props).data k2 = alist_lookup props k2) := by
  simp only [CustomData.set, hr, hs, Bool.or_self, Bool.false_eq_true,
    if_false, Except.ok.injEq, Prod.mk.injEq, and_true] at h1
  subst h1
  have hmain : alist_lookup
      (set_properties_data (alist_insert d.data k v) props) k = some v :=
    set_properties_data_keeps props (alist_insert d.data k v) k v
      (alist_lookup_insert_self d.data k v)
  refine ⟨hmain, ?_, ?_⟩
  · simp only [CustomData.set_properties, CustomData.get, key_href]
    rw [if_neg]
    · exact hmain
    · simp [hr, Finset.not_mem_erase, key_href]
  · intro k2 hk2 hnone
    exact set_properties_data_of_absent props _ k2 hk2 hnone

/-- C10 witness: after manually writing quux on the concrete fixture,
merging the incoming test properties keeps the manual value of quux and
stores the fresh incoming key baz as given. -/
theorem merge_keeps_locally_set_value_witness :
    alist_lookup (ex_m1.set_properties props10).data "quux" =
      some (Value.vStr "a-little-corgi") ∧
    (ex_m1.set_properties props10).get "quux" =
      some (Value.vStr "a-little-corgi") ∧
    (∀ k2, is_reserved k2 = false → alist_lookup ex_m1.data k2 = none →
      alist_lookup (ex_m1.set_properties props10).data k2 =
        alist_lookup props10 k2) :=
  merge_keeps_locally_set_value ex_m "quux" (Value.vStr "a-little-corgi")
    props10 ex_m1 rfl rfl rfl

end Stormpath
